import Mathlib

/-!
Shallow embedding of the customer-reviews-iac repository:
the CDK stack `lib/customer-reviews-iac-stack.ts`, the CDK app entry point
(`bin/customer-reviews-iac.ts`) and the Jenkins pipeline (`Jenkinsfile`),
with theorems settling the frozen claims about them.
-/

namespace CRIac

/-- Embeds `cdk.Duration`, measured in whole seconds (the stack only uses
`Duration.seconds`, `Duration.minutes` and — in the docs — hours). -/
structure Duration where
  seconds : Nat
deriving DecidableEq, Repr

def Duration.ofSeconds (n : Nat) : Duration := ⟨n⟩

def Duration.minutes (n : Nat) : Duration := ⟨n * 60⟩

def Duration.hours (n : Nat) : Duration := ⟨n * 3600⟩

/-- Embeds `events.Schedule`: either a rate expression or a cron expression. -/
inductive Schedule where
  | rate (d : Duration)
  | cron (expr : String)
deriving DecidableEq, Repr

def Schedule.isRate : Schedule → Bool
  | .rate _ => true
  | .cron _ => false

/-- Embeds the `s3.BlockPublicAccess` flags, as passed in the stack. -/
structure BlockPublicAccess where
  blockPublicAcls : Bool
  blockPublicPolicy : Bool
  ignorePublicAcls : Bool
  restrictPublicBuckets : Bool
deriving DecidableEq, Repr

/-- Embeds the `s3.HttpMethods` members the embedding needs. -/
inductive HttpMethods where
  | GET
  | PUT
  | POST
  | DELETE
  | HEAD
deriving DecidableEq, Repr

/-- One CORS rule of an S3 bucket. -/
structure CorsRule where
  allowedMethods : List HttpMethods
  allowedOrigins : List String
  allowedHeaders : List String
deriving DecidableEq, Repr

/-- Embeds `cdk.RemovalPolicy`. -/
inductive RemovalPolicy where
  | DESTROY
  | RETAIN
deriving DecidableEq, Repr

/-- An `s3.Bucket` declaration with the properties the stack sets. -/
structure Bucket where
  bucketName : String
  publicReadAccess : Bool
  blockPublicAccess : BlockPublicAccess
  cors : List CorsRule
  removalPolicy : RemovalPolicy
  autoDeleteObjects : Bool
deriving DecidableEq, Repr

/-- Deploy-time token for `bucket.bucketWebsiteUrl`. -/
def Bucket.bucketWebsiteUrl (b : Bucket) : String :=
  "<token:" ++ b.bucketName ++ ".websiteUrl>"

/-- Embeds the `lambda.Runtime` members used by the stack. -/
inductive Runtime where
  | NODEJS_22_X
deriving DecidableEq, Repr

/-- Embeds `lambda.Code`: either an external asset directory or inline source. -/
inductive Code where
  | fromAsset (path : String)
  | fromInline (source : String)
deriving DecidableEq, Repr

def Code.isFromAsset : Code → Bool
  | .fromAsset _ => true
  | .fromInline _ => false

/-- A `lambda.Function` declaration with the properties the stack sets. -/
structure LambdaFunction where
  runtime : Runtime
  handler : String
  functionName : String
  code : Code
  environment : List (String × String)
  timeout : Duration
  memorySize : Nat
  description : String
deriving DecidableEq, Repr

/-- Deploy-time token for `fn.functionArn`. -/
def LambdaFunction.functionArn (f : LambdaFunction) : String :=
  "<token:" ++ f.functionName ++ ".arn>"

/-- An `apigateway.LambdaRestApi` declaration. -/
structure RestApi where
  handler : LambdaFunction
  restApiName : String
  description : String
  proxy : Bool
deriving DecidableEq, Repr

/-- Deploy-time token for `api.url`. -/
def RestApi.url (a : RestApi) : String :=
  "<token:" ++ a.restApiName ++ ".url>"

/-- A target of an EventBridge rule (`targets.LambdaFunction`). -/
inductive RuleTarget where
  | lambdaFunction (fn : LambdaFunction)
deriving DecidableEq, Repr

/-- An `events.Rule` declaration together with its added targets. -/
structure Rule where
  schedule : Schedule
  description : String
  targets : List RuleTarget
deriving DecidableEq, Repr

/-- A `cdk.CfnOutput` declaration. -/
structure CfnOutput where
  name : String
  value : String
  description : String
deriving DecidableEq, Repr

/-- Embeds `bucket.grantWrite(fn)`: writing permission on a bucket for a function. -/
structure Grant where
  granteeFunctionName : String
  bucketName : String
deriving DecidableEq, Repr

/-- JavaScript `v || 'default'`: `undefined` (here `none`) and the empty
string are falsy, so both yield `'default'`. -/
def jsOrDefault (v : Option String) : String :=
  match v with
  | none => "default"
  | some s => if s = "" then "default" else s

/-- Embeds `path.join(a, b)` for a directory `a` and a relative path `b`. -/
def pathJoin (a b : String) : String := a ++ "/" ++ b

/-- The deployment context a stack construction sees: the `prNumber` CDK
context value (as `tryGetContext` returns it), the account and region of
the stack, and the process working directory. -/
structure Context where
  prNumber : Option String
  account : String
  region : String
  cwd : String
deriving DecidableEq, Repr

/-- The resources and wiring declared by the `CustomerReviewsIacStack`
constructor. -/
structure CustomerReviewsIacStack where
  prNumber : String
  prSuffix : String
  reviewsBucket : Bucket
  mockApiLambda : LambdaFunction
  mockApi : RestApi
  reviewsLambda : LambdaFunction
  hourlyRule : Rule
  grants : List Grant
  outputs : List CfnOutput
deriving DecidableEq, Repr

/-- The constructor body of `CustomerReviewsIacStack`
(`lib/customer-reviews-iac-stack.ts`), line by line. -/
def mkCustomerReviewsIacStack (ctx : Context) : CustomerReviewsIacStack :=
  let prNumber := jsOrDefault ctx.prNumber
  let prSuffix := if prNumber ≠ "default" then "-pr-" ++ prNumber else ""
  let reviewsBucket : Bucket :=
    { bucketName := "customer-reviews-fragments" ++ prSuffix ++ "-" ++ ctx.account
      publicReadAccess := true
      blockPublicAccess :=
        { blockPublicAcls := false
          blockPublicPolicy := false
          ignorePublicAcls := false
          restrictPublicBuckets := false }
      cors :=
        [{ allowedMethods := [HttpMethods.GET]
           allowedOrigins := ["*"]
           allowedHeaders := ["*"] }]
      removalPolicy := RemovalPolicy.DESTROY
      autoDeleteObjects := true }
  let mockApiLambda : LambdaFunction :=
    { runtime := Runtime.NODEJS_22_X
      handler := "handler.handler"
      functionName := "mock-api-lambda" ++ prSuffix
      code := Code.fromAsset (pathJoin ctx.cwd "customer-reviews-app/dist/mock-api")
      environment := []
      timeout := Duration.ofSeconds 30
      memorySize := 512
      description := "Mock API that returns fake product review data" }
  let mockApi : RestApi :=
    { handler := mockApiLambda
      restApiName := "CustomerReviewsMockAPI" ++ prSuffix
      description := "Mock API Gateway for customer reviews data"
      proxy := true }
  let reviewsLambda : LambdaFunction :=
    { runtime := Runtime.NODEJS_22_X
      handler := "index.handler"
      functionName := "customer-reviews-lambda" ++ prSuffix
      code := Code.fromAsset (pathJoin ctx.cwd "customer-reviews-app/dist")
      environment :=
        [("API_BASE_URL", mockApi.url),
         ("PRODUCT_IDS", "product-a,product-b"),
         ("OUTPUT_BUCKET", reviewsBucket.bucketName)]
      timeout := Duration.minutes 5
      memorySize := 512
      description := "Fetches reviews and generates HTML fragments in S3" }
  let hourlyRule : Rule :=
    { schedule := Schedule.rate (Duration.minutes 5)
      description := "Triggers reviews Lambda every hour to update fragments"
      targets := [RuleTarget.lambdaFunction reviewsLambda] }
  { prNumber := prNumber
    prSuffix := prSuffix
    reviewsBucket := reviewsBucket
    mockApiLambda := mockApiLambda
    mockApi := mockApi
    reviewsLambda := reviewsLambda
    hourlyRule := hourlyRule
    grants := [{ granteeFunctionName := reviewsLambda.functionName
                 bucketName := reviewsBucket.bucketName }]
    outputs :=
      [{ name := "ReviewsBucketName"
         value := reviewsBucket.bucketName
         description := "S3 bucket storing HTML review fragments" },
       { name := "ReviewsBucketURL"
         value := reviewsBucket.bucketWebsiteUrl
         description := "Public URL for S3 bucket" },
       { name := "MockApiEndpoint"
         value := mockApi.url
         description := "Mock API Gateway endpoint URL" },
       { name := "ReviewsLambdaArn"
         value := reviewsLambda.functionArn
         description := "ARN of the reviews processing Lambda" },
       { name := "MainPageURL"
         value := "https://" ++ reviewsBucket.bucketName ++ ".s3." ++ ctx.region
                    ++ ".amazonaws.com/index.html"
         description := "Main HTML page with ESI includes (for Fastly CDN)" }] }

/-- The kinds of AWS resource declarations the stack makes. -/
inductive Resource where
  | bucket (b : Bucket)
  | lambdaFunction (f : LambdaFunction)
  | restApi (a : RestApi)
  | rule (r : Rule)
deriving DecidableEq, Repr

/-- The resource declarations of the constructor, in source order. -/
def resources (st : CustomerReviewsIacStack) : List Resource :=
  [Resource.bucket st.reviewsBucket,
   Resource.lambdaFunction st.mockApiLambda,
   Resource.restApi st.mockApi,
   Resource.lambdaFunction st.reviewsLambda,
   Resource.rule st.hourlyRule]

def countBuckets (l : List Resource) : Nat :=
  l.countP (fun r => match r with | .bucket _ => true | _ => false)

def countLambdaFunctions (l : List Resource) : Nat :=
  l.countP (fun r => match r with | .lambdaFunction _ => true | _ => false)

def countRestApis (l : List Resource) : Nat :=
  l.countP (fun r => match r with | .restApi _ => true | _ => false)

def countRules (l : List Resource) : Nat :=
  l.countP (fun r => match r with | .rule _ => true | _ => false)

/-- The lambda functions among the declared resources, in source order. -/
def stackLambdaFunctions (st : CustomerReviewsIacStack) : List LambdaFunction :=
  (resources st).filterMap (fun r =>
    match r with | .lambdaFunction f => some f | _ => none)

/-- The EventBridge rules among the declared resources. -/
def stackRules (st : CustomerReviewsIacStack) : List Rule :=
  (resources st).filterMap (fun r =>
    match r with | .rule r => some r | _ => none)

/-- The stack name the CDK app entry point (`bin/customer-reviews-iac.ts`)
computes from the `prNumber` context value. -/
def appStackName (ctxPr : Option String) : String :=
  let prNumber := jsOrDefault ctxPr
  if prNumber ≠ "default" then "CustomerReviewsIacStack-" ++ prNumber
  else "CustomerReviewsIacStack"

/-- Groovy `v ?: d`: `null` (here `none`) and the empty string are falsy. -/
def groovyElvis (v : Option String) (d : String) : String :=
  match v with
  | none => d
  | some s => if s = "" then d else s

/-- Embeds the Jenkinsfile environment resolution of PR_NUMBER: the
Jenkinsfile environment block. -/
def jenkinsPrNumber (paramsPr envPr : Option String) : String :=
  groovyElvis paramsPr (groovyElvis envPr "default")

/-- The stack name the Deploy and Display stages of the Jenkinsfile fall
back to when no `config/pr-{PR_NUMBER}/config.json` exists. -/
def jenkinsFallbackStackName (prNumber : String) : String :=
  "CustomerReviewsIacStack-" ++ prNumber

/-- The environment a pipeline run sees: the resolved `PR_NUMBER` and the
optional `BOOTSTRAP_CDK` environment variable. -/
structure PipelineEnv where
  prNumber : String
  bootstrapCdk : Option String
deriving DecidableEq, Repr

/-- The external tools a pipeline stage invokes. -/
inductive Tool where
  | scmCheckout
  | node
  | npm
  | awsCli
  | npxCdk
  | shellUtil
deriving DecidableEq, Repr

/-- A Jenkins pipeline stage: its name, its `when` condition, and the
external tools its steps invoke. -/
structure Stage where
  name : String
  runWhen : PipelineEnv → Bool
  tools : List Tool

/-- The `when` expression of the Bootstrap CDK stage:
`env.PR_NUMBER == 'default' || env.BOOTSTRAP_CDK == 'true'`. -/
def bootstrapWhen (env : PipelineEnv) : Bool :=
  env.prNumber = "default" || env.bootstrapCdk = some "true"

/-- The stages of the Jenkinsfile, in source order, with the external tools
each one shells out to. -/
def pipelineStages : List Stage :=
  [⟨"Checkout Infrastructure Code", fun _ => true, [Tool.scmCheckout]⟩,
   ⟨"Checkout App Code", fun _ => true, [Tool.scmCheckout]⟩,
   ⟨"Setup Node.js", fun _ => true, [Tool.node, Tool.npm]⟩,
   ⟨"Install Dependencies", fun _ => true, [Tool.npm]⟩,
   ⟨"Read PR Configuration", fun _ => true, [Tool.shellUtil]⟩,
   ⟨"Bootstrap CDK", bootstrapWhen, [Tool.awsCli, Tool.npxCdk]⟩,
   ⟨"Synthesize CDK", fun _ => true, [Tool.npxCdk]⟩,
   ⟨"Deploy CDK Stack", fun _ => true, [Tool.npxCdk]⟩,
   ⟨"Display Stack Outputs", fun _ => true, [Tool.awsCli, Tool.shellUtil]⟩]

/-- The stage names in source order. -/
def stageNames : List String := pipelineStages.map Stage.name

/-- Sequential Jenkins semantics over a list of stages: a stage whose
`when` is false is skipped; an executed stage that fails (per the oracle
`ok`, naming which stages' steps exit zero) stops the run. Returns the
names of the stages that executed, in order. -/
def runStages : List Stage → PipelineEnv → (String → Bool) → List String
  | [], _, _ => []
  | s :: rest, env, ok =>
    if s.runWhen env then
      if ok s.name then s.name :: runStages rest env ok else [s.name]
    else runStages rest env ok

/-- One run of the Jenkinsfile pipeline. -/
def runPipeline (env : PipelineEnv) (ok : String → Bool) : List String :=
  runStages pipelineStages env ok

/-- Every operation the repository itself performs: a declarative resource
construction or wiring step of the stack constructor, a step of the CDK app
entry point, or a shell-out of a pipeline stage to an external tool. -/
inductive RepoOp where
  | constructResource (r : Resource)
  | grantWrite (g : Grant)
  | addTarget (t : RuleTarget)
  | declareOutput (o : CfnOutput)
  | appCreateApp
  | appComputeStackName (name : String)
  | appConstructStack (stackName : String)
  | pipelineShellOut (tool : Tool)
deriving DecidableEq, Repr

/-- The operations of the stack constructor body, in source order. -/
def stackOps (ctx : Context) : List RepoOp :=
  let st := mkCustomerReviewsIacStack ctx
  [RepoOp.constructResource (Resource.bucket st.reviewsBucket),
   RepoOp.constructResource (Resource.lambdaFunction st.mockApiLambda),
   RepoOp.constructResource (Resource.restApi st.mockApi),
   RepoOp.constructResource (Resource.lambdaFunction st.reviewsLambda),
   RepoOp.grantWrite { granteeFunctionName := st.reviewsLambda.functionName
                       bucketName := st.reviewsBucket.bucketName },
   RepoOp.constructResource (Resource.rule st.hourlyRule),
   RepoOp.addTarget (RuleTarget.lambdaFunction st.reviewsLambda)]
    ++ st.outputs.map RepoOp.declareOutput

/-- The operations of the CDK app entry point, in source order. -/
def appEntryOps (ctxPr : Option String) : List RepoOp :=
  [RepoOp.appCreateApp,
   RepoOp.appComputeStackName (appStackName ctxPr),
   RepoOp.appConstructStack (appStackName ctxPr)]

/-- The operations of the pipeline script: each stage shells out to its
external tools. -/
def pipelineOps : List RepoOp :=
  (pipelineStages.map (fun s => s.tools.map RepoOp.pipelineShellOut)).flatten

/-- Every operation of the repository for one deployment context. -/
def repoOps (ctx : Context) : List RepoOp :=
  stackOps ctx ++ appEntryOps ctx.prNumber ++ pipelineOps

def RepoOp.isDeclarativeConstruction : RepoOp → Bool
  | .constructResource _ => true
  | .grantWrite _ => true
  | .addTarget _ => true
  | .declareOutput _ => true
  | .appCreateApp => true
  | .appComputeStackName _ => true
  | .appConstructStack _ => true
  | .pipelineShellOut _ => false

def RepoOp.isExternalDelegation : RepoOp → Bool
  | .pipelineShellOut _ => true
  | _ => false

theorem strAppend_assoc (a b c : String) : a ++ b ++ c = a ++ (b ++ c) := by
  apply String.ext
  simp

theorem runStages_sublist (l : List Stage) (env : PipelineEnv)
    (ok : String → Bool) : List.Sublist (runStages l env ok) (l.map Stage.name) := by
  induction l with
  | nil => exact List.nil_sublist _
  | cons s rest ih =>
    simp only [runStages, List.map_cons]
    by_cases hw : s.runWhen env = true
    · rw [if_pos hw]
      by_cases hok : ok s.name = true
      · rw [if_pos hok]
        exact List.Sublist.cons₂ s.name ih
      · rw [if_neg hok]
        exact List.Sublist.cons₂ s.name (List.nil_sublist _)
    · rw [if_neg hw]
      exact List.Sublist.cons s.name ih

theorem name_mem_runStages (l : List Stage) (env : PipelineEnv)
    (ok : String → Bool) :
    ∀ b ∈ runStages l env ok, ∃ s, s ∈ l ∧ s.name = b ∧ s.runWhen env = true := by
  induction l with
  | nil => intro b hb; exact absurd hb (List.not_mem_nil b)
  | cons s rest ih =>
    intro b hb
    simp only [runStages] at hb
    by_cases hw : s.runWhen env = true
    · rw [if_pos hw] at hb
      by_cases hok : ok s.name = true
      · rw [if_pos hok] at hb
        rcases List.mem_cons.mp hb with rfl | hb2
        · exact ⟨s, List.mem_cons_self s rest, rfl, hw⟩
        · obtain ⟨t, ht, hn, hw2⟩ := ih b hb2
          exact ⟨t, List.mem_cons_of_mem s ht, hn, hw2⟩
      · rw [if_neg hok] at hb
        rcases List.mem_singleton.mp hb with rfl
        exact ⟨s, List.mem_cons_self s rest, rfl, hw⟩
    · rw [if_neg hw] at hb
      obtain ⟨t, ht, hn, hw2⟩ := ih b hb
      exact ⟨t, List.mem_cons_of_mem s ht, hn, hw2⟩

theorem not_mem_runStages_cons (s : Stage) (rest : List Stage)
    (env : PipelineEnv) (ok : String → Bool) (b : String) (hbs : b ≠ s.name)
    (hbr : b ∉ runStages rest env ok) : b ∉ runStages (s :: rest) env ok := by
  intro hb
  simp only [runStages] at hb
  by_cases hw : s.runWhen env = true
  · rw [if_pos hw] at hb
    by_cases hok : ok s.name = true
    · rw [if_pos hok] at hb
      rcases List.mem_cons.mp hb with h | h
      · exact hbs h
      · exact hbr h
    · rw [if_neg hok] at hb
      exact hbs (List.mem_singleton.mp hb)
  · rw [if_neg hw] at hb
    exact hbr hb

theorem not_mem_runStages_fail (s : Stage) (rest : List Stage)
    (env : PipelineEnv) (ok : String → Bool) (b : String)
    (hw : s.runWhen env = true) (hok : ok s.name = false) (hbs : b ≠ s.name) :
    b ∉ runStages (s :: rest) env ok := by
  intro hb
  simp only [runStages] at hb
  rw [if_pos hw, if_neg (by simp [hok])] at hb
  exact hbs (List.mem_singleton.mp hb)

/-- Claim C1 (code bug evidence): for every deployment context, the
EventBridge rule the stack declares is scheduled at a rate of once every
5 minutes — not once every 1 hour — even though the rule's own description
states an hourly trigger; a 5-minute rate differs from a 1-hour rate. -/
theorem hourlyRule_schedule_divergence (ctx : Context) :
    (mkCustomerReviewsIacStack ctx).hourlyRule.schedule
        = Schedule.rate (Duration.minutes 5)
      ∧ (mkCustomerReviewsIacStack ctx).hourlyRule.description
          = "Triggers reviews Lambda every hour to update fragments"
      ∧ Schedule.rate (Duration.minutes 5) ≠ Schedule.rate (Duration.hours 1) :=
  ⟨rfl, rfl, by decide⟩

/-- Claim C1 witness: the divergence at the default deployment context. -/
theorem hourlyRule_schedule_divergence_witness :
    (mkCustomerReviewsIacStack ⟨none, "111122223333", "us-east-1", "/ws"⟩).hourlyRule.schedule
      = Schedule.rate (Duration.minutes 5) :=
  (hourlyRule_schedule_divergence ⟨none, "111122223333", "us-east-1", "/ws"⟩).1

/-- Claim C2: for every value of the prNumber context (including absent),
the constructor declares exactly one S3 bucket, exactly two Lambda
functions, exactly one EventBridge rule and exactly one REST API. -/
theorem stack_resource_counts (ctx : Context) :
    countBuckets (resources (mkCustomerReviewsIacStack ctx)) = 1
      ∧ countLambdaFunctions (resources (mkCustomerReviewsIacStack ctx)) = 2
      ∧ countRules (resources (mkCustomerReviewsIacStack ctx)) = 1
      ∧ countRestApis (resources (mkCustomerReviewsIacStack ctx)) = 1 :=
  ⟨rfl, rfl, rfl, rfl⟩

/-- Claim C3: the two Lambda functions of the stack are the only ones
declared, and both take their code from external build-artifact
directories relative to the process working directory — the reviews Lambda
from `customer-reviews-app/dist` and the mock API Lambda from
`customer-reviews-app/dist/mock-api`; neither carries inline source. -/
theorem lambda_code_external_artifacts (ctx : Context) :
    stackLambdaFunctions (mkCustomerReviewsIacStack ctx)
        = [(mkCustomerReviewsIacStack ctx).mockApiLambda,
           (mkCustomerReviewsIacStack ctx).reviewsLambda]
      ∧ (mkCustomerReviewsIacStack ctx).reviewsLambda.code
          = Code.fromAsset (pathJoin ctx.cwd "customer-reviews-app/dist")
      ∧ (mkCustomerReviewsIacStack ctx).mockApiLambda.code
          = Code.fromAsset (pathJoin ctx.cwd "customer-reviews-app/dist/mock-api")
      ∧ (mkCustomerReviewsIacStack ctx).mockApiLambda.code.isFromAsset = true
      ∧ (mkCustomerReviewsIacStack ctx).reviewsLambda.code.isFromAsset = true :=
  ⟨rfl, rfl, rfl, rfl, rfl⟩

/-- Claim C5: the stack declares one EventBridge rule, defined by a rate
expression (not cron); its only target is the reviews Lambda, and the mock
API Lambda is not among its targets. -/
theorem hourly_rule_single_target_reviews_lambda (ctx : Context) :
    stackRules (mkCustomerReviewsIacStack ctx)
        = [(mkCustomerReviewsIacStack ctx).hourlyRule]
      ∧ (mkCustomerReviewsIacStack ctx).hourlyRule.schedule.isRate = true
      ∧ (mkCustomerReviewsIacStack ctx).hourlyRule.targets
          = [RuleTarget.lambdaFunction (mkCustomerReviewsIacStack ctx).reviewsLambda]
      ∧ RuleTarget.lambdaFunction (mkCustomerReviewsIacStack ctx).mockApiLambda ∉
          (mkCustomerReviewsIacStack ctx).hourlyRule.targets := by
  refine ⟨rfl, rfl, rfl, fun hmem => ?_⟩
  have h : RuleTarget.lambdaFunction (mkCustomerReviewsIacStack ctx).mockApiLambda
      = RuleTarget.lambdaFunction (mkCustomerReviewsIacStack ctx).reviewsLambda :=
    List.mem_singleton.mp hmem
  have hh : ("handler.handler" : String) = "index.handler" :=
    congrArg LambdaFunction.handler (RuleTarget.lambdaFunction.inj h)
  exact absurd hh (by decide)

/-- Claim C7: every operation of the stack constructor, the CDK app entry
point and the pipeline script is either a declarative resource construction
or a delegation to an external tool or managed service. -/
theorem all_ops_declarative_or_delegation (ctx : Context) :
    (repoOps ctx).all
        (fun op => op.isDeclarativeConstruction || op.isExternalDelegation) = true :=
  rfl

/-- Claim C9: for every deployment context, the reviews fragments bucket is
world-readable (public read, all four block-public-access flags off, a GET
CORS rule for any origin and any headers) and disposable (DESTROY removal
policy with automatic object deletion). -/
theorem reviews_bucket_public_and_disposable (ctx : Context) :
    (mkCustomerReviewsIacStack ctx).reviewsBucket.publicReadAccess = true
      ∧ (mkCustomerReviewsIacStack ctx).reviewsBucket.blockPublicAccess
          = { blockPublicAcls := false, blockPublicPolicy := false,
              ignorePublicAcls := false, restrictPublicBuckets := false }
      ∧ (mkCustomerReviewsIacStack ctx).reviewsBucket.cors
          = [{ allowedMethods := [HttpMethods.GET], allowedOrigins := ["*"],
               allowedHeaders := ["*"] }]
      ∧ (mkCustomerReviewsIacStack ctx).reviewsBucket.removalPolicy
          = RemovalPolicy.DESTROY
      ∧ (mkCustomerReviewsIacStack ctx).reviewsBucket.autoDeleteObjects = true :=
  ⟨rfl, rfl, rfl, rfl, rfl⟩

/-- Claim C4: the pipeline stages run strictly in source order (any run
executes a sublist of the fixed stage order); a run where every step
succeeds executes every stage, with Bootstrap CDK included exactly when
PR_NUMBER is `default` or BOOTSTRAP_CDK is `true`; the deploy stage is
never reached when synthesis fails; and each stage only shells out to
external tools (source control, node, npm, the AWS CLI, npx cdk, shell
utilities). -/
theorem pipeline_sequential_order :
    stageNames = ["Checkout Infrastructure Code", "Checkout App Code", "Setup Node.js",
        "Install Dependencies", "Read PR Configuration", "Bootstrap CDK",
        "Synthesize CDK", "Deploy CDK Stack", "Display Stack Outputs"]
      ∧ (∀ env ok, List.Sublist (runPipeline env ok) stageNames)
      ∧ (∀ env, bootstrapWhen env = true →
          runPipeline env (fun _ => true) = stageNames)
      ∧ (∀ env, bootstrapWhen env = false →
          runPipeline env (fun _ => true)
            = ["Checkout Infrastructure Code", "Checkout App Code", "Setup Node.js",
               "Install Dependencies", "Read PR Configuration", "Synthesize CDK",
               "Deploy CDK Stack", "Display Stack Outputs"])
      ∧ (∀ env ok, "Bootstrap CDK" ∈ runPipeline env ok → bootstrapWhen env = true)
      ∧ (∀ env ok, ok "Synthesize CDK" = false →
          "Deploy CDK Stack" ∉ runPipeline env ok)
      ∧ pipelineStages.map Stage.tools
          = [[Tool.scmCheckout], [Tool.scmCheckout], [Tool.node, Tool.npm],
             [Tool.npm], [Tool.shellUtil], [Tool.awsCli, Tool.npxCdk],
             [Tool.npxCdk], [Tool.npxCdk], [Tool.awsCli, Tool.shellUtil]] := by
  refine ⟨rfl, fun env ok => runStages_sublist pipelineStages env ok, ?_, ?_, ?_, ?_, rfl⟩
  · intro env h
    simp [runPipeline, pipelineStages, runStages, stageNames, h]
  · intro env h
    simp [runPipeline, pipelineStages, runStages, h]
  · intro env ok h
    obtain ⟨s, hs, hname, hwhen⟩ := name_mem_runStages pipelineStages env ok _ h
    simp only [pipelineStages, List.mem_cons, List.not_mem_nil, or_false] at hs
    rcases hs with rfl | rfl | rfl | rfl | rfl | rfl | rfl | rfl | rfl <;>
      simp_all
  · intro env ok hfail
    show "Deploy CDK Stack" ∉ runStages pipelineStages env ok
    refine not_mem_runStages_cons _ _ _ _ _ (by decide) ?_
    refine not_mem_runStages_cons _ _ _ _ _ (by decide) ?_
    refine not_mem_runStages_cons _ _ _ _ _ (by decide) ?_
    refine not_mem_runStages_cons _ _ _ _ _ (by decide) ?_
    refine not_mem_runStages_cons _ _ _ _ _ (by decide) ?_
    refine not_mem_runStages_cons _ _ _ _ _ (by decide) ?_
    exact not_mem_runStages_fail _ _ _ _ _ rfl hfail (by decide)

/-- Claim C8 counterexample: with the prNumber context present but equal to
the empty string — a value that is present and differs from `default` —
the bucket is not named with the `-pr-` suffix the claim predicts, because
the JavaScript `||` fallback treats the empty string as falsy. -/
theorem pr_suffix_naming_counterexample :
    ¬ ((mkCustomerReviewsIacStack ⟨some "", "111122223333", "us-east-1", "/ws"⟩).reviewsBucket.bucketName
        = "customer-reviews-fragments-pr-" ++ "" ++ "-" ++ "111122223333") := by
  decide

/-- Claim C8 (amended): for every nonempty prNumber context value c other
than `default`, every resource name carries the `-pr-c` suffix — the
bucket, both Lambda functions, the REST API and the stack id; when the
context value is absent, empty, or `default`, every one of these names is
the corresponding un-suffixed name. -/
theorem pr_suffix_naming_consistent (s acct region cwd : String)
    (hs : s ≠ "") (hd : s ≠ "default") :
    (mkCustomerReviewsIacStack ⟨some s, acct, region, cwd⟩).reviewsBucket.bucketName
        = "customer-reviews-fragments-pr-" ++ s ++ "-" ++ acct
      ∧ (mkCustomerReviewsIacStack ⟨some s, acct, region, cwd⟩).mockApiLambda.functionName
          = "mock-api-lambda-pr-" ++ s
      ∧ (mkCustomerReviewsIacStack ⟨some s, acct, region, cwd⟩).reviewsLambda.functionName
          = "customer-reviews-lambda-pr-" ++ s
      ∧ (mkCustomerReviewsIacStack ⟨some s, acct, region, cwd⟩).mockApi.restApiName
          = "CustomerReviewsMockAPI-pr-" ++ s
      ∧ appStackName (some s) = "CustomerReviewsIacStack-" ++ s
      ∧ (∀ c : Option String, c = none ∨ c = some "" ∨ c = some "default" →
          (mkCustomerReviewsIacStack ⟨c, acct, region, cwd⟩).reviewsBucket.bucketName
              = "customer-reviews-fragments-" ++ acct
            ∧ (mkCustomerReviewsIacStack ⟨c, acct, region, cwd⟩).mockApiLambda.functionName
                = "mock-api-lambda"
            ∧ (mkCustomerReviewsIacStack ⟨c, acct, region, cwd⟩).reviewsLambda.functionName
                = "customer-reviews-lambda"
            ∧ (mkCustomerReviewsIacStack ⟨c, acct, region, cwd⟩).mockApi.restApiName
                = "CustomerReviewsMockAPI"
            ∧ appStackName c = "CustomerReviewsIacStack") := by
  refine ⟨?_, ?_, ?_, ?_, ?_, ?_⟩
  · simp [mkCustomerReviewsIacStack, jsOrDefault, hs, hd, ← strAppend_assoc]
  · simp [mkCustomerReviewsIacStack, jsOrDefault, hs, hd, ← strAppend_assoc]
  · simp [mkCustomerReviewsIacStack, jsOrDefault, hs, hd, ← strAppend_assoc]
  · simp [mkCustomerReviewsIacStack, jsOrDefault, hs, hd, ← strAppend_assoc]
  · simp [appStackName, jsOrDefault, hs, hd]
  · rintro c (rfl | rfl | rfl) <;>
      simp [mkCustomerReviewsIacStack, appStackName, jsOrDefault]

/-- Claim C8 witness: the amended naming at the concrete context value
`42`. -/
theorem pr_suffix_naming_witness :
    (mkCustomerReviewsIacStack ⟨some "42", "111122223333", "us-east-1", "/ws"⟩).reviewsBucket.bucketName
      = "customer-reviews-fragments-pr-" ++ "42" ++ "-" ++ "111122223333" :=
  (pr_suffix_naming_consistent "42" "111122223333" "us-east-1" "/ws"
    (by decide) (by decide)).1

/-- Claim C10 counterexample: at PR_NUMBER `default` the Jenkinsfile
fallback stack name is `CustomerReviewsIacStack-default` while the CDK app
entry point names the stack `CustomerReviewsIacStack`. -/
theorem jenkins_app_stack_name_counterexample :
    jenkinsFallbackStackName "default" ≠ appStackName (some "default") := by
  decide

/-- Claim C10 (amended): for every nonempty PR_NUMBER other than `default`
— and the Jenkinsfile environment block can only produce nonempty values —
the fallback stack name the pipeline computes equals the stack name the
CDK app entry point constructs for the same prNumber context. -/
theorem jenkins_app_stack_name_agree (pr : String)
    (h1 : pr ≠ "") (h2 : pr ≠ "default") :
    jenkinsFallbackStackName pr = appStackName (some pr)
      ∧ ∀ p e : Option String, jenkinsPrNumber p e ≠ "" := by
  constructor
  · simp [jenkinsFallbackStackName, appStackName, jsOrDefault, h1, h2]
  · intro p e
    cases p with
    | none =>
      cases e with
      | none => simp [jenkinsPrNumber, groovyElvis]
      | some t =>
        by_cases ht : t = "" <;> simp [jenkinsPrNumber, groovyElvis, ht]
    | some t =>
      by_cases ht : t = ""
      · cases e with
        | none => simp [jenkinsPrNumber, groovyElvis, ht]
        | some u =>
          by_cases hu : u = "" <;> simp [jenkinsPrNumber, groovyElvis, ht, hu]
      · simp [jenkinsPrNumber, groovyElvis, ht]

/-- Claim C10 witness: agreement at the concrete PR_NUMBER `123`. -/
theorem jenkins_app_stack_name_agree_witness :
    jenkinsFallbackStackName "123" = appStackName (some "123") :=
  (jenkins_app_stack_name_agree "123" (by decide) (by decide)).1

end CRIac
